import Mathlib

/-!
Shallow embedding of the orchestration core of the LOTR multi-agent demo
(`main.py`) and of the quote MCP server (`lotr_mcp_server.py`), together with
theorems about the embedded definitions.

External agents are modelled as response oracles: a function from the 1-based
loop turn number and the prompt sent on that turn to the final collected reply
string (the value `stream_agent_response` returns for that call).  All string
primitives mirror the Python operations used by the code on the ASCII range
(`str.strip`, `str.lower`, `str.upper`, `str.startswith`, substring `in`).
-/

namespace LotrDemo

/-- Whitespace characters stripped by Python `str.strip()` (ASCII range). -/
def isPyWhitespace (c : Char) : Bool :=
  c == ' ' || c == '\t' || c == '\n' || c == '\r' || c == '\x0b' || c == '\x0c'

/-- Python `s.strip()`: drop whitespace from both ends. -/
def pyStrip (s : String) : String :=
  String.mk (((s.data.dropWhile isPyWhitespace).reverse.dropWhile isPyWhitespace).reverse)

/-- Python `s.lower()` on the ASCII range. -/
def pyLower (s : String) : String :=
  String.mk (s.data.map Char.toLower)

/-- Python `s.upper()` on the ASCII range. -/
def pyUpper (s : String) : String :=
  String.mk (s.data.map Char.toUpper)

/-- Python `s.startswith(pre)`. -/
def pyStartsWith (s pre : String) : Bool :=
  pre.data.isPrefixOf s.data

/-- Contiguous-sublist test on lists of characters, the semantics of Python
`needle in hay`. -/
def listContainsSub (hay needle : List Char) : Bool :=
  match hay with
  | [] => needle.isEmpty
  | _ :: rest => needle.isPrefixOf hay || listContainsSub rest needle

/-- Python `needle in hay` on strings. -/
def strContainsSub (hay needle : String) : Bool :=
  listContainsSub hay.data needle.data

/-! ## Poetry ping-pong scenario (`run_ping_pong`, main.py lines 176-228) -/

/-- The poetry verdict enumeration (`verdict: Literal["approved", "revise"]`). -/
inductive PoetryVerdict where
  | approved
  | revise
deriving DecidableEq, Repr

/-- The inline verdict classification of `run_ping_pong` (main.py lines
208-216): strip and lowercase the critic output, test the leading token.  The
second component records whether the `Unrecognized verdict` diagnostic notice
was printed. -/
def classifyPoetry (criticOutput : String) : PoetryVerdict × Bool :=
  let normalized := pyLower (pyStrip criticOutput)
  if pyStartsWith normalized "approved" then (.approved, false)
  else if pyStartsWith normalized "revise" then (.revise, false)
  else (.revise, true)

/-- The review prompt sent to the critic (main.py lines 196-199). -/
def reviewPrompt (poemOutput : String) : String :=
  "Please evaluate the paraphrase and poem below. Confirm APPROVED or provide REVISE feedback.\n\n"
    ++ poemOutput

/-- The revision task sent back to the poet (main.py lines 222-226). -/
def reviseTask (criticOutput poemOutput : String) : String :=
  "Incorporate the critic feedback below. Keep the poem to four lines, reuse the retrieved quote context, and respond with STATUS: REVISION or STATUS: READY.\n\nFeedback: "
    ++ criticOutput ++ "\n\nPrevious poem draft:\n" ++ poemOutput

/-- Terminal outcome of the poetry scenario: approval reported with the
1-based turn count, or the ping-pong limit reached without approval. -/
inductive PingPongOutcome where
  | approved (turn : Nat)
  | limitReached
deriving DecidableEq, Repr

/-- The body of the `for turn in range(1, limit + 1)` loop of `run_ping_pong`,
by recursion on the number of remaining turns.  `poet` and `critic` are the
response oracles; the returned `Nat` counts executed loop iterations. -/
def pingPongGo (poet critic : Nat → String → String) :
    Nat → Nat → String → PingPongOutcome × Nat
  | 0, _, _ => (.limitReached, 0)
  | remaining + 1, turn, task =>
    let poemOutput := poet turn task
    let criticOutput := critic turn (reviewPrompt poemOutput)
    if (classifyPoetry criticOutput).fst = .approved then
      (.approved turn, 1)
    else
      let rest := pingPongGo poet critic remaining (turn + 1) (reviseTask criticOutput poemOutput)
      (rest.fst, rest.snd + 1)

/-- `run_ping_pong` (main.py lines 176-228): run the loop from turn 1 with the
initial task, for at most `limit` iterations. -/
def run_ping_pong (poet critic : Nat → String → String) (initialTask : String)
    (limit : Nat) : PingPongOutcome × Nat :=
  pingPongGo poet critic limit 1 initialTask

/-! ## Mystery investigation scenario (`run_mystery_solving`, main.py lines 231-335) -/

/-- The two investigators (`current_investigator: Literal["gandalf", "bilbo"]`). -/
inductive Investigator where
  | gandalf
  | bilbo
deriving DecidableEq, Repr

/-- `"SOLUTION:" in response.upper()` (main.py line 282). -/
def hasSolutionMarker (response : String) : Bool :=
  strContainsSub (pyUpper response) "SOLUTION:"

/-- `"CONCUR" in bilbo_response.upper()` (main.py line 299). -/
def hasConcur (response : String) : Bool :=
  strContainsSub (pyUpper response) "CONCUR"

/-- The mystery verdict enumeration derived from the verification reply
(main.py lines 299-307): `"concur"` present means solved, absent unsolved. -/
inductive MysteryVerdict where
  | solved
  | unsolved
deriving DecidableEq, Repr

/-- Classification of a verification reply with the mystery scheme. -/
def classifyMysteryVerification (response : String) : MysteryVerdict :=
  if hasConcur response then .solved else .unsolved

/-- The verification prompt sent to Bilbo when Gandalf declares a solution
(main.py lines 286-289). -/
def verificationPrompt (response : String) : String :=
  "Gandalf proposes the following solution:\n\n" ++ response
    ++ "\n\nDo you concur with this solution, or do you see any flaws?"

/-- The context handed back to Gandalf when Bilbo dissents (main.py lines
304-307). -/
def reconsiderContext (bilboResponse : String) : String :=
  "Bilbo\x27s response to your solution:\n\n" ++ bilboResponse
    ++ "\n\nConsider his feedback and continue investigating."

/-- The ordinary-analysis context routed to Bilbo (main.py lines 311-314). -/
def analysisContext (response : String) : String :=
  "Gandalf\x27s analysis:\n\n" ++ response
    ++ "\n\nWhat are your thoughts? Do you notice anything else?"

/-- The observation context routed back to Gandalf after Bilbo speaks
(main.py lines 327-330). -/
def observationContext (response : String) : String :=
  "Bilbo\x27s observation:\n\n" ++ response
    ++ "\n\nIncorporate his insights and continue your deduction."

/-- The opening investigation context built from the Sauron mystery text
(main.py line 266). -/
def initialInvestigationContext (mystery : String) : String :=
  "A dark mystery has been presented:\n\n" ++ mystery
    ++ "\n\nWhat are your initial thoughts?"

/-- Terminal outcome of the mystery scenario. -/
inductive MysteryOutcome where
  | solved
  | limitReached
deriving DecidableEq, Repr

/-- Result of the mystery investigation loop: outcome, number of executed
loop iterations, and the ordered investigator exchanges, each recorded as
(callee, prompt sent). -/
structure MysteryResult where
  outcome : MysteryOutcome
  iterations : Nat
  calls : List (Investigator × String)
deriving DecidableEq, Repr

/-- The body of the `for turn in range(1, max_turns + 1)` loop of
`run_mystery_solving` (main.py lines 271-331), by recursion on remaining
turns.  An iteration in which Gandalf declares a solution makes two
investigator calls: Gandalf, then Bilbo with the verification prompt. -/
def mysteryGo (gandalf bilbo : Nat → String → String) :
    Nat → Nat → Investigator → String → MysteryResult
  | 0, _, _, _ => ⟨.limitReached, 0, []⟩
  | remaining + 1, turn, .gandalf, ctx =>
    let response := gandalf turn ctx
    if hasSolutionMarker response then
      let vprompt := verificationPrompt response
      let bilboResponse := bilbo turn vprompt
      if hasConcur bilboResponse then
        ⟨.solved, 1, [(.gandalf, ctx), (.bilbo, vprompt)]⟩
      else
        let rest := mysteryGo gandalf bilbo remaining (turn + 1) .gandalf
          (reconsiderContext bilboResponse)
        ⟨rest.outcome, rest.iterations + 1, (.gandalf, ctx) :: (.bilbo, vprompt) :: rest.calls⟩
    else
      let rest := mysteryGo gandalf bilbo remaining (turn + 1) .bilbo (analysisContext response)
      ⟨rest.outcome, rest.iterations + 1, (.gandalf, ctx) :: rest.calls⟩
  | remaining + 1, turn, .bilbo, ctx =>
    let response := bilbo turn ctx
    let rest := mysteryGo gandalf bilbo remaining (turn + 1) .gandalf (observationContext response)
    ⟨rest.outcome, rest.iterations + 1, (.bilbo, ctx) :: rest.calls⟩

/-- `run_mystery_solving` (main.py lines 231-335), after the one-shot Sauron
mystery creation (whose collected output is the `mystery` argument): run the
investigation loop from turn 1 starting at Gandalf. -/
def run_mystery_solving (gandalf bilbo : Nat → String → String) (mystery : String)
    (maxTurns : Nat) : MysteryResult :=
  mysteryGo gandalf bilbo maxTurns 1 .gandalf (initialInvestigationContext mystery)

/-! ## Response collector (`stream_agent_response`, main.py lines 137-173) -/

/-- One entry of the `delta.tool_calls` list of a chunk: the function name may be
absent (`call.function.name is None`). -/
structure ToolCallEntry where
  name : Option String
deriving DecidableEq, Repr

/-- One streamed response fragment.  `text` is the visible text delta (`""`
models both absent and empty text, which Python truthiness identifies);
`toolCalls = none` models every chunk in which the nested attribute probe of
`_chunk_contains_tool_calls` fails to find a populated
`choices[0].delta.tool_calls` list (no recognizable tool-call shape). -/
structure Chunk where
  text : String
  toolCalls : Option (List ToolCallEntry)
deriving DecidableEq, Repr

/-- `_chunk_contains_tool_calls` (main.py lines 137-148): a recognizable,
non-`None`, non-empty tool-call list is present. -/
def chunkContainsToolCalls (c : Chunk) : Bool :=
  match c.toolCalls with
  | none => false
  | some calls => decide (0 < calls.length)

/-- The tool names extracted from a chunk (main.py lines 165-169): every
non-`None` function name, in order. -/
def chunkToolNames (c : Chunk) : List String :=
  (c.toolCalls.getD []).filterMap (fun call => call.name)

/-- The chunk-consuming loop of `stream_agent_response` (main.py lines
159-171): first component collects the text deltas appended to `collected`,
second collects the tool-call name lists printed along the way, flattened in
order. -/
def collectChunks (logToolCalls : Bool) : List Chunk → List String × List String
  | [] => ([], [])
  | c :: rest =>
    let acc := collectChunks logToolCalls rest
    if c.text ≠ "" then
      (c.text :: acc.fst, acc.snd)
    else if logToolCalls && chunkContainsToolCalls c then
      (acc.fst, chunkToolNames c ++ acc.snd)
    else
      acc

/-- `stream_agent_response` (main.py lines 151-173): returns the stripped
concatenation of the collected text deltas; the tool-call names printed for
observability are modelled as the second component. -/
def stream_agent_response (logToolCalls : Bool) (chunks : List Chunk) :
    String × List String :=
  let acc := collectChunks logToolCalls chunks
  (pyStrip (String.join acc.fst), acc.snd)

/-- The tool names the collector observes, recomputed directly from the chunk
sequence: names of chunks that carry no text but a recognizable non-empty
tool-call list. -/
def observedToolNames (logToolCalls : Bool) (chunks : List Chunk) : List String :=
  ((chunks.filter (fun c => c.text == "" && (logToolCalls && chunkContainsToolCalls c))).map
    chunkToolNames).flatten

/-! ## Orchestrator dispatch (`main`, main.py lines 338-440) -/

/-- What the orchestrator does once the scenario value is resolved. -/
inductive ScenarioOutcome where
  | poetryRun
  | mysteryRun
  | configError
deriving DecidableEq, Repr

/-- The interactive scenario prompt loop (main.py lines 360-369) fed a finite
list of user inputs; `none` models the loop still waiting for a valid choice
after exhausting the list. -/
def promptScenario : List String → Option String
  | [] => none
  | choice :: rest =>
    let c := pyStrip choice
    if c = "1" then some "poetry"
    else if c = "2" then some "mystery"
    else promptScenario rest

/-- Scenario resolution (main.py lines 345-371): the lowercased `SCENARIO`
environment value, or the prompt loop when it is empty. -/
def resolveScenario (envScenario : String) (userInputs : List String) : Option String :=
  let scenario := pyLower envScenario
  if scenario = "" then promptScenario userInputs else some scenario

/-- The scenario dispatch of `main` (main.py lines 373-435): `"poetry"` and
`"mystery"` run their scenario, anything else is the reported unknown-scenario
configuration error; `none` when the prompt loop never resolves. -/
def mainOutcome (envScenario : String) (userInputs : List String) : Option ScenarioOutcome :=
  match resolveScenario envScenario userInputs with
  | none => none
  | some s =>
    if s = "poetry" then some .poetryRun
    else if s = "mystery" then some .mysteryRun
    else some .configError

/-- Whether a dispatch outcome instantiates agent handles: only the two
scenario branches construct `ChatAgent` values (main.py lines 375-430); the
unknown-scenario branch returns first (lines 432-435). -/
def agentsInstantiated : ScenarioOutcome → Bool
  | .poetryRun => true
  | .mysteryRun => true
  | .configError => false

/-! ## Quote MCP server (`lotr_mcp_server.py`) -/

/-- The fixed guidance string returned by `describe_lotr_quote`
(lotr_mcp_server.py lines 130-133). -/
def quoteGuidance : String :=
  "Consider the tone, speaker, and context of the quote. Highlight emotional beats or conflicts and build poetic imagery that mirrors Middle-earth\x27s lore."

/-- `describe_lotr_quote` (lotr_mcp_server.py lines 119-133): raises on
empty/whitespace-only input, otherwise returns the fixed guidance string. -/
def describe_lotr_quote (quote : String) : Except String String :=
  if pyStrip quote = "" then .error "Quote text must not be empty."
  else .ok quoteGuidance

/-- The error message raised for an unusable total count
(lotr_mcp_server.py line 71). -/
def totalCountError : String :=
  "Unable to determine total quote count from The One API."

/-- Result of one `_ensure_total_quotes` call: the new cached value, the
returned total or raised error, and whether the upstream service was
contacted. -/
structure EnsureTotalResult where
  cache : Option Int
  result : Except String Int
  contactedUpstream : Bool
deriving Repr

/-- `_ensure_total_quotes` (lotr_mcp_server.py lines 60-73).  `cache` is
`app_ctx.total_quotes`; `upstreamTotalField` is the `"total"` field of the upstream response (`none` when absent, defaulted to `0` by
`int(data.get("total", 0))`).  The upstream service is contacted only when
the cache is `None`; a cached non-positive value raises. -/
def ensure_total_quotes (cache : Option Int) (upstreamTotalField : Option Int) :
    EnsureTotalResult :=
  match cache with
  | none =>
    let t := upstreamTotalField.getD 0
    if t ≤ 0 then ⟨some t, .error totalCountError, true⟩
    else ⟨some t, .ok t, true⟩
  | some t =>
    if t ≤ 0 then ⟨some t, .error totalCountError, false⟩
    else ⟨some t, .ok t, false⟩

/-- `_fetch_random_quote` (lotr_mcp_server.py lines 76-89), up to the choice
of random offset: it first needs `_ensure_total_quotes` to succeed, then
fails when the returned `docs` list is empty.  `docs` stands for the quote
documents of the second upstream response. -/
def fetch_random_quote (cache : Option Int) (upstreamTotalField : Option Int)
    (docs : List String) : Option Int × Except String String :=
  let e := ensure_total_quotes cache upstreamTotalField
  match e.result with
  | .error msg => (e.cache, .error msg)
  | .ok _ =>
    match docs with
    | [] => (e.cache, .error "No quote returned from The One API.")
    | d :: _ => (e.cache, .ok d)

/-! ## Concrete response oracles and chunk sequences used by witnesses and
counterexamples -/

/-- A poet that always returns the same draft. -/
def poetOracle : Nat → String → String := fun _ _ => "a four line poem"

/-- A critic that always asks for revision. -/
def criticReviseOracle : Nat → String → String := fun _ _ => "Revise: tighten line two"

/-- A critic that always approves. -/
def criticApproveOracle : Nat → String → String := fun _ _ => "Approved: lovely imagery"

/-- A Gandalf that declares a solution on every turn. -/
def gandalfSolutionOracle : Nat → String → String := fun _ _ => "SOLUTION: The culprit is Gollum"

/-- A Gandalf that only analyses and never declares a solution. -/
def gandalfPlainOracle : Nat → String → String := fun _ _ => "The clues point toward the mines"

/-- A Bilbo that never concurs. -/
def bilboDissentOracle : Nat → String → String := fun _ _ => "I do not agree at all"

/-- A Bilbo that concurs with any proposed solution. -/
def bilboConcurOracle : Nat → String → String := fun _ _ => "I concur with this solution"

/-- A small streamed chunk sequence: text, a tool-call marker, more text. -/
def sampleChunks : List Chunk :=
  [⟨"Hello, ", none⟩, ⟨"", some [⟨some "get_lotr_quote"⟩]⟩, ⟨"world", none⟩]

end LotrDemo

namespace LotrDemo


/-! ## Helper lemmas -/

/-- The ping-pong loop executes at most `remaining` iterations. -/
theorem pingPongGo_snd_le (poet critic : Nat → String → String) :
    ∀ (remaining turn : Nat) (task : String),
      (pingPongGo poet critic remaining turn task).snd ≤ remaining := by
  intro remaining
  induction remaining with
  | zero => intro turn task; simp [pingPongGo]
  | succ n ih =>
    intro turn task
    simp only [pingPongGo]
    split
    · simp
    · simpa using Nat.succ_le_succ (ih (turn + 1) _)

/-- If every critic reply classifies as `revise`, the ping-pong loop runs all
its remaining iterations and ends in `limitReached`. -/
theorem pingPongGo_all_revise (poet critic : Nat → String → String)
    (h : ∀ t m, (classifyPoetry (critic t m)).fst = .revise) :
    ∀ (remaining turn : Nat) (task : String),
      pingPongGo poet critic remaining turn task = (.limitReached, remaining) := by
  intro remaining
  induction remaining with
  | zero => intro turn task; rfl
  | succ n ih =>
    intro turn task
    simp only [pingPongGo, h]
    simp [ih]

/-- An approval outcome reports the turn at which it occurred: starting the
loop at `turn`, the reported turn plus one equals `turn` plus the number of
executed iterations. -/
theorem pingPongGo_approved_turn (poet critic : Nat → String → String) :
    ∀ (remaining turn : Nat) (task : String) (t n : Nat),
      pingPongGo poet critic remaining turn task = (.approved t, n) → t + 1 = turn + n := by
  intro remaining
  induction remaining with
  | zero => intro turn task t n h; simp [pingPongGo] at h
  | succ r ih =>
    intro turn task t n h
    simp only [pingPongGo] at h
    split at h
    · simp only [Prod.mk.injEq, PingPongOutcome.approved.injEq] at h
      omega
    · simp only [Prod.mk.injEq] at h
      obtain ⟨h1, h2⟩ := h
      have hrec :
          pingPongGo poet critic r (turn + 1)
              (reviseTask (critic turn (reviewPrompt (poet turn task))) (poet turn task))
            = (.approved t,
               (pingPongGo poet critic r (turn + 1)
                 (reviseTask (critic turn (reviewPrompt (poet turn task))) (poet turn task))).snd) := by
        rw [← h1]
      have := ih (turn + 1) _ t _ hrec
      omega

/-- A list is a prefix of itself followed by anything. -/
theorem isPrefixOf_self_append :
    ∀ (s t : List Char), s.isPrefixOf (s ++ t) = true := by
  intro s
  induction s with
  | nil => intro t; simp [List.isPrefixOf]
  | cons a s ih => intro t; simp [List.isPrefixOf, ih]

/-- `listContainsSub` finds a needle that sits at the front of the haystack. -/
theorem listContainsSub_self_append (s post : List Char) :
    listContainsSub (s ++ post) s = true := by
  cases h : s ++ post with
  | nil =>
    have hs : s = [] := (List.append_eq_nil.mp h).1
    simp [hs, listContainsSub]
  | cons x xs =>
    simp only [listContainsSub]
    rw [← h, isPrefixOf_self_append]
    simp

/-- `listContainsSub` finds a needle anywhere inside the haystack. -/
theorem listContainsSub_append_middle :
    ∀ (pre s post : List Char), listContainsSub (pre ++ (s ++ post)) s = true := by
  intro pre
  induction pre with
  | nil => intro s post; simpa using listContainsSub_self_append s post
  | cons a pre ih =>
    intro s post
    simp only [List.cons_append, listContainsSub, List.append_eq]
    rw [ih]
    simp

/-- A string surrounded by two others is a Python substring of the result. -/
theorem strContainsSub_middle (a s c : String) :
    strContainsSub (a ++ s ++ c) s = true := by
  unfold strContainsSub
  rw [String.data_append, String.data_append, List.append_assoc]
  exact listContainsSub_append_middle a.data s.data c.data

/-- Dropping a satisfying prefix does not change whether all elements
satisfy the predicate. -/
theorem forall_mem_dropWhile_iff (p : Char → Bool) :
    ∀ (d : List Char),
      ((∀ x ∈ d.dropWhile p, p x = true) ↔ ∀ x ∈ d, p x = true) := by
  intro d
  induction d with
  | nil => simp
  | cons a d ih =>
    by_cases hpa : p a = true
    · rw [List.dropWhile_cons_of_pos hpa]
      rw [ih]
      constructor
      · intro h x hx
        rcases List.mem_cons.mp hx with hx | hx
        · rw [hx]; exact hpa
        · exact h x hx
      · intro h x hx; exact h x (List.mem_cons_of_mem a hx)
    · rw [List.dropWhile_cons_of_neg hpa]

/-- `pyStrip` returns the empty string exactly when every character of the
input is Python whitespace (in particular on the empty string). -/
theorem pyStrip_eq_empty_iff (s : String) :
    pyStrip s = "" ↔ s.data.all isPyWhitespace = true := by
  unfold pyStrip
  rw [String.ext_iff]
  show ((s.data.dropWhile isPyWhitespace).reverse.dropWhile isPyWhitespace).reverse
      = ([] : List Char) ↔ _
  rw [List.reverse_eq_nil_iff, List.dropWhile_eq_nil_iff]
  simp only [List.mem_reverse]
  rw [forall_mem_dropWhile_iff isPyWhitespace s.data]
  exact (List.all_eq_true).symm

/-- Folding string append from an arbitrary accumulator. -/
theorem foldl_append_eq (l : List String) :
    ∀ (a : String),
      l.foldl (fun r s => r ++ s) a = a ++ l.foldl (fun r s => r ++ s) "" := by
  induction l with
  | nil => intro a; simp
  | cons x xs ih =>
    intro a
    simp only [List.foldl]
    rw [ih (a ++ x), ih ("" ++ x), String.empty_append, String.append_assoc]

/-- `String.join` on a cons. -/
theorem string_join_cons (a : String) (l : List String) :
    String.join (a :: l) = a ++ String.join l := by
  simp only [String.join, List.foldl]
  rw [foldl_append_eq, String.empty_append]

/-- The mystery loop executes at most `remaining` iterations. -/
theorem mysteryGo_iterations_le (gandalf bilbo : Nat → String → String) :
    ∀ (remaining turn : Nat) (inv : Investigator) (ctx : String),
      (mysteryGo gandalf bilbo remaining turn inv ctx).iterations ≤ remaining := by
  intro remaining
  induction remaining with
  | zero => intro turn inv ctx; cases inv <;> simp [mysteryGo]
  | succ n ih =>
    intro turn inv ctx
    cases inv
    · simp only [mysteryGo]
      split
      · split
        · simp
        · simpa using Nat.succ_le_succ (ih (turn + 1) .gandalf _)
      · simpa using Nat.succ_le_succ (ih (turn + 1) .bilbo _)
    · simpa [mysteryGo] using Nat.succ_le_succ (ih (turn + 1) .gandalf _)

/-- The mystery loop makes at most `2 * remaining` investigator calls: each
iteration makes one call, plus one verification call when Gandalf declared a
solution. -/
theorem mysteryGo_calls_le (gandalf bilbo : Nat → String → String) :
    ∀ (remaining turn : Nat) (inv : Investigator) (ctx : String),
      (mysteryGo gandalf bilbo remaining turn inv ctx).calls.length ≤ 2 * remaining := by
  intro remaining
  induction remaining with
  | zero => intro turn inv ctx; cases inv <;> simp [mysteryGo]
  | succ n ih =>
    intro turn inv ctx
    cases inv
    · simp only [mysteryGo]
      split
      · split
        · simp
        · have := ih (turn + 1) .gandalf
            (reconsiderContext (bilbo turn (verificationPrompt (gandalf turn ctx))))
          simp only [List.length_cons]
          omega
      · have := ih (turn + 1) .bilbo (analysisContext (gandalf turn ctx))
        simp only [List.length_cons]
        omega
    · have := ih (turn + 1) .gandalf (observationContext (bilbo turn ctx))
      simp only [mysteryGo, List.length_cons]
      omega

/-- If Bilbo never concurs, the mystery loop never terminates early: it runs
all its remaining iterations and ends in `limitReached`. -/
theorem mysteryGo_no_concur (gandalf bilbo : Nat → String → String)
    (h : ∀ t p, hasConcur (bilbo t p) = false) :
    ∀ (remaining turn : Nat) (inv : Investigator) (ctx : String),
      (mysteryGo gandalf bilbo remaining turn inv ctx).outcome = .limitReached ∧
        (mysteryGo gandalf bilbo remaining turn inv ctx).iterations = remaining := by
  intro remaining
  induction remaining with
  | zero => intro turn inv ctx; cases inv <;> simp [mysteryGo]
  | succ n ih =>
    intro turn inv ctx
    cases inv
    · simp only [mysteryGo, h]
      split
      · have := ih (turn + 1) .gandalf
          (reconsiderContext (bilbo turn (verificationPrompt (gandalf turn ctx))))
        simpa using this
      · have := ih (turn + 1) .bilbo (analysisContext (gandalf turn ctx))
        simpa using this
    · have := ih (turn + 1) .gandalf (observationContext (bilbo turn ctx))
      simpa [mysteryGo] using this

/-- Joining the collected text deltas gives the same string as joining every
text delta of every chunk: skipped chunks carry empty text. -/
theorem collectChunks_join_fst (logToolCalls : Bool) :
    ∀ (chunks : List Chunk),
      String.join (collectChunks logToolCalls chunks).fst
        = String.join (chunks.map Chunk.text) := by
  intro chunks
  induction chunks with
  | nil => rfl
  | cons c rest ih =>
    simp only [collectChunks, List.map_cons]
    rw [string_join_cons]
    by_cases hc : c.text = ""
    · rw [if_neg (by simpa using hc), hc, String.empty_append]
      split
      · rw [← ih]
      · rw [← ih]
    · rw [if_pos (by simpa using hc), string_join_cons, ih]

/-- The tool names the collector accumulates are exactly the observed ones:
those of chunks that carry no text but a recognizable tool-call list. -/
theorem collectChunks_snd (logToolCalls : Bool) :
    ∀ (chunks : List Chunk),
      (collectChunks logToolCalls chunks).snd = observedToolNames logToolCalls chunks := by
  intro chunks
  induction chunks with
  | nil => rfl
  | cons c rest ih =>
    by_cases hc : c.text = ""
    · cases hlog : logToolCalls with
      | false =>
        subst hlog
        simp [collectChunks, observedToolNames, List.filter_cons, hc, ih]
      | true =>
        subst hlog
        cases hcc : chunkContainsToolCalls c with
        | false => simp [collectChunks, observedToolNames, List.filter_cons, hc, hcc, ih]
        | true => simp [collectChunks, observedToolNames, List.filter_cons, hc, hcc, ih]
    · simp [collectChunks, observedToolNames, List.filter_cons, hc, ih]

/-- The collected text does not depend on the tool-call fields of the
chunks. -/
theorem collectChunks_fst_retag (logToolCalls : Bool)
    (retag : Chunk → Option (List ToolCallEntry)) :
    ∀ (chunks : List Chunk),
      (collectChunks logToolCalls (chunks.map (fun c => ⟨c.text, retag c⟩))).fst
        = (collectChunks logToolCalls chunks).fst := by
  intro chunks
  induction chunks with
  | nil => rfl
  | cons c rest ih =>
    by_cases hc : c.text = ""
    · simp only [List.map_cons, collectChunks, hc]
      simp only [ne_eq, not_true_eq_false, if_false]
      split
      · split
        · simpa using ih
        · simpa using ih
      · split
        · simpa using ih
        · simpa using ih
    · simp [collectChunks, hc, ih]

/-! ## Claim theorems -/

/-- C1: for every limit `L ≥ 1` the poetry ping-pong loop body executes at
most `L` iterations, and when every critic reply classifies as `revise` it
executes exactly `L` iterations and terminates in `limitReached` (the loop,
a total function here, exits exactly once). -/
theorem c1_ping_pong_limit (poet critic : Nat → String → String) (initialTask : String)
    (limit : Nat) (_hlim : 1 ≤ limit) :
    (run_ping_pong poet critic initialTask limit).snd ≤ limit ∧
      ((∀ t m, (classifyPoetry (critic t m)).fst = .revise) →
        run_ping_pong poet critic initialTask limit = (.limitReached, limit)) := by
  refine ⟨pingPongGo_snd_le poet critic limit 1 initialTask, ?_⟩
  intro h
  exact pingPongGo_all_revise poet critic h limit 1 initialTask

/-- C1 witness: with limit 2 and an always-revising critic the loop runs
exactly 2 iterations and ends in `limitReached`. -/
theorem c1_ping_pong_limit_witness :
    (run_ping_pong poetOracle criticReviseOracle "task" 2).snd ≤ 2 ∧
      run_ping_pong poetOracle criticReviseOracle "task" 2 = (.limitReached, 2) := by
  have h := c1_ping_pong_limit poetOracle criticReviseOracle "task" 2 (by decide)
  exact ⟨h.1, h.2 (fun t m => rfl)⟩

/-- C2 counterexample: with the configured limit 0 the loop body never runs,
so although the first critic reply classifies as approved, the scenario
ends in `limitReached` after 0 iterations rather than succeeding after 1. -/
theorem c2_first_approval_counterexample :
    (classifyPoetry (criticApproveOracle 1 (reviewPrompt (poetOracle 1 "task")))).fst
        = .approved ∧
      run_ping_pong poetOracle criticApproveOracle "task" 0 = (.limitReached, 0) ∧
      run_ping_pong poetOracle criticApproveOracle "task" 0 ≠ (.approved 1, 1) := by
  decide

/-- C2 (amended): for every limit `L ≥ 1`, if the first critic reply
classifies as approved the scenario terminates successfully after exactly 1
iteration, and on any approval the reported turn count equals the 1-based
iteration index in which approval occurred. -/
theorem c2_first_approval (poet critic : Nat → String → String) (initialTask : String)
    (limit : Nat) (hlim : 1 ≤ limit) :
    ((classifyPoetry (critic 1 (reviewPrompt (poet 1 initialTask)))).fst = .approved →
        run_ping_pong poet critic initialTask limit = (.approved 1, 1)) ∧
      (∀ t n, run_ping_pong poet critic initialTask limit = (.approved t, n) → t = n) := by
  constructor
  · intro happ
    obtain ⟨l, rfl⟩ : ∃ l, limit = l + 1 := ⟨limit - 1, by omega⟩
    unfold run_ping_pong
    simp [pingPongGo, happ]
  · intro t n h
    have := pingPongGo_approved_turn poet critic limit 1 initialTask t n h
    omega

/-- C2 witness: with limit 3 and an always-approving critic the scenario
reports approval at turn 1 after exactly 1 iteration. -/
theorem c2_first_approval_witness :
    run_ping_pong poetOracle criticApproveOracle "task" 3 = (.approved 1, 1) ∧
      (1 : Nat) = 1 := by
  have h := c2_first_approval poetOracle criticApproveOracle "task" 3 (by decide)
  have h1 := h.1 rfl
  exact ⟨h1, h.2 1 1 h1⟩

/-- C3 counterexample: with `MYSTERY_MAX_TURNS = 1`, a Gandalf who declares a
solution and a Bilbo who never concurs, the single loop iteration makes 2
investigator exchanges (Gandalf plus the Bilbo verification reply), exceeding
the claimed bound of 1. -/
theorem c3_exchange_bound_counterexample :
    hasConcur (bilboDissentOracle 1 "p") = false ∧
      (run_mystery_solving gandalfSolutionOracle bilboDissentOracle "a mystery" 1).calls.length
        = 2 ∧
      ¬((run_mystery_solving gandalfSolutionOracle bilboDissentOracle
          "a mystery" 1).calls.length ≤ 1) := by
  decide

/-- C3 (amended): the mystery loop executes at most `MYSTERY_MAX_TURNS`
iterations and makes at most `2 * MYSTERY_MAX_TURNS` investigator exchanges
(an iteration with a solution proposal makes two calls); if the Bilbo replies
never contain "concur", the run executes exactly `MYSTERY_MAX_TURNS` loop
iterations and terminates in `limitReached` (the non-fatal warning path). -/
theorem c3_turn_bound (gandalf bilbo : Nat → String → String) (mystery : String)
    (maxTurns : Nat) :
    (run_mystery_solving gandalf bilbo mystery maxTurns).iterations ≤ maxTurns ∧
      (run_mystery_solving gandalf bilbo mystery maxTurns).calls.length ≤ 2 * maxTurns ∧
      ((∀ t p, hasConcur (bilbo t p) = false) →
        (run_mystery_solving gandalf bilbo mystery maxTurns).outcome = .limitReached ∧
          (run_mystery_solving gandalf bilbo mystery maxTurns).iterations = maxTurns) := by
  refine ⟨mysteryGo_iterations_le gandalf bilbo maxTurns 1 .gandalf _,
    mysteryGo_calls_le gandalf bilbo maxTurns 1 .gandalf _, ?_⟩
  intro h
  exact mysteryGo_no_concur gandalf bilbo h maxTurns 1 .gandalf _

/-- C3 witness: with `MYSTERY_MAX_TURNS = 2`, a Gandalf who never declares a
solution and a Bilbo who never concurs, the run executes exactly 2 iterations
within the bounds and ends in `limitReached`. -/
theorem c3_turn_bound_witness :
    (run_mystery_solving gandalfPlainOracle bilboDissentOracle "a mystery" 2).iterations
        ≤ 2 ∧
      (run_mystery_solving gandalfPlainOracle bilboDissentOracle "a mystery" 2).calls.length
        ≤ 4 ∧
      (run_mystery_solving gandalfPlainOracle bilboDissentOracle "a mystery" 2).outcome
        = .limitReached ∧
      (run_mystery_solving gandalfPlainOracle bilboDissentOracle "a mystery" 2).iterations
        = 2 := by
  have h := c3_turn_bound gandalfPlainOracle bilboDissentOracle "a mystery" 2
  have h2 := h.2.2 (fun t p => rfl)
  exact ⟨h.1, h.2.1, h2.1, h2.2⟩

/-- C4: the poetry verdict classification: after stripping and lowercasing,
a leading "approved" yields `approved`, otherwise the verdict is `revise`
(whether or not it starts with "revise"), and the unrecognized-verdict
diagnostic notice is emitted exactly when neither token leads; the empty
string defaults to `revise` with the notice. -/
theorem c4_poetry_classification (s : String) :
    ((classifyPoetry s).fst = .approved ↔
        pyStartsWith (pyLower (pyStrip s)) "approved" = true) ∧
      ((classifyPoetry s).fst = .revise ↔
        pyStartsWith (pyLower (pyStrip s)) "approved" = false) ∧
      ((classifyPoetry s).snd = true ↔
        (pyStartsWith (pyLower (pyStrip s)) "approved" = false ∧
          pyStartsWith (pyLower (pyStrip s)) "revise" = false)) ∧
      classifyPoetry "" = (.revise, true) := by
  refine ⟨?_, ?_, ?_, by decide⟩ <;>
    (unfold classifyPoetry
     cases ha : pyStartsWith (pyLower (pyStrip s)) "approved" <;>
       cases hr : pyStartsWith (pyLower (pyStrip s)) "revise" <;>
         simp [ha, hr])

/-- C5: in the mystery investigator step, a Gandalf reply containing the
solution marker routes to Bilbo as a verification step whose prompt presents
the full Gandalf reply; "concur" in the verification reply terminates as
solved, its absence folds the Bilbo feedback into the next context and resumes
alternation at Gandalf; without the marker the reply is routed to Bilbo as
ordinary analysis. -/
theorem c5_mystery_routing (gandalf bilbo : Nat → String → String) (r turn : Nat)
    (ctx : String) :
    (hasSolutionMarker (gandalf turn ctx) = true →
        strContainsSub (verificationPrompt (gandalf turn ctx)) (gandalf turn ctx) = true ∧
        (hasConcur (bilbo turn (verificationPrompt (gandalf turn ctx))) = true →
          mysteryGo gandalf bilbo (r + 1) turn .gandalf ctx
            = ⟨.solved, 1,
               [(.gandalf, ctx), (.bilbo, verificationPrompt (gandalf turn ctx))]⟩) ∧
        (hasConcur (bilbo turn (verificationPrompt (gandalf turn ctx))) = false →
          mysteryGo gandalf bilbo (r + 1) turn .gandalf ctx
            = ⟨(mysteryGo gandalf bilbo r (turn + 1) .gandalf
                  (reconsiderContext
                    (bilbo turn (verificationPrompt (gandalf turn ctx))))).outcome,
               (mysteryGo gandalf bilbo r (turn + 1) .gandalf
                  (reconsiderContext
                    (bilbo turn (verificationPrompt (gandalf turn ctx))))).iterations + 1,
               (.gandalf, ctx) :: (.bilbo, verificationPrompt (gandalf turn ctx)) ::
                 (mysteryGo gandalf bilbo r (turn + 1) .gandalf
                   (reconsiderContext
                     (bilbo turn (verificationPrompt (gandalf turn ctx))))).calls⟩)) ∧
      (hasSolutionMarker (gandalf turn ctx) = false →
        mysteryGo gandalf bilbo (r + 1) turn .gandalf ctx
          = ⟨(mysteryGo gandalf bilbo r (turn + 1) .bilbo
                (analysisContext (gandalf turn ctx))).outcome,
             (mysteryGo gandalf bilbo r (turn + 1) .bilbo
                (analysisContext (gandalf turn ctx))).iterations + 1,
             (.gandalf, ctx) :: (mysteryGo gandalf bilbo r (turn + 1) .bilbo
               (analysisContext (gandalf turn ctx))).calls⟩) := by
  constructor
  · intro hs
    refine ⟨?_, ?_, ?_⟩
    · unfold verificationPrompt
      exact strContainsSub_middle _ _ _
    · intro hcon
      simp [mysteryGo, hs, hcon]
    · intro hcon
      simp [mysteryGo, hs, hcon]
  · intro hs
    simp [mysteryGo, hs]

/-- C5 witness: the three step shapes at concrete oracles: verification with
concurrence solves, verification with dissent resumes at Gandalf after two
calls, and a plain analysis reply routes to Bilbo after one call. -/
theorem c5_mystery_routing_witness :
    strContainsSub (verificationPrompt "SOLUTION: The culprit is Gollum")
        "SOLUTION: The culprit is Gollum" = true ∧
      mysteryGo gandalfSolutionOracle bilboConcurOracle 1 1 .gandalf "c"
        = ⟨.solved, 1,
           [(.gandalf, "c"),
            (.bilbo, verificationPrompt "SOLUTION: The culprit is Gollum")]⟩ ∧
      mysteryGo gandalfSolutionOracle bilboDissentOracle 1 1 .gandalf "c"
        = ⟨.limitReached, 1,
           [(.gandalf, "c"),
            (.bilbo, verificationPrompt "SOLUTION: The culprit is Gollum")]⟩ ∧
      mysteryGo gandalfPlainOracle bilboDissentOracle 1 1 .gandalf "c"
        = ⟨.limitReached, 1, [(.gandalf, "c")]⟩ := by
  have h1 := c5_mystery_routing gandalfSolutionOracle bilboConcurOracle 0 1 "c"
  have h2 := c5_mystery_routing gandalfSolutionOracle bilboDissentOracle 0 1 "c"
  have h3 := c5_mystery_routing gandalfPlainOracle bilboDissentOracle 0 1 "c"
  exact ⟨(h1.1 rfl).1, (h1.1 rfl).2.1 rfl, (h2.1 rfl).2.2 rfl, h3.2 rfl⟩

/-- C6: verdict classification is total, pure and deterministic: every string
maps to one of the two verdicts of each scheme (both classifiers are total
Lean functions, so they never fail), and equal inputs give equal verdicts. -/
theorem c6_classification_total (s t : String) :
    ((classifyPoetry s).fst = .approved ∨ (classifyPoetry s).fst = .revise) ∧
      (classifyMysteryVerification s = .solved ∨
        classifyMysteryVerification s = .unsolved) ∧
      (s = t → classifyPoetry s = classifyPoetry t ∧
        classifyMysteryVerification s = classifyMysteryVerification t) := by
  refine ⟨?_, ?_, ?_⟩
  · cases h : (classifyPoetry s).fst
    · exact Or.inl rfl
    · exact Or.inr rfl
  · cases h : classifyMysteryVerification s
    · exact Or.inl rfl
    · exact Or.inr rfl
  · rintro rfl
    exact ⟨rfl, rfl⟩

/-- C6 witness: determinism discharged at the concrete input "maybe?". -/
theorem c6_classification_total_witness :
    classifyPoetry "maybe?" = classifyPoetry "maybe?" ∧
      classifyMysteryVerification "maybe?" = classifyMysteryVerification "maybe?" :=
  (c6_classification_total "maybe?" "maybe?").2.2 rfl

/-- C7: the response collector returns the stripped concatenation of all
text deltas in arrival order together with the ordered tool-call names it
observes (those of no-text chunks with a recognizable tool-call list);
chunks with neither text nor a recognizable tool-call shape are ignored, and
the tool-call fields never alter the accumulated text. -/
theorem c7_response_collector (chunks : List Chunk) :
    (stream_agent_response true chunks).fst
        = pyStrip (String.join (chunks.map Chunk.text)) ∧
      (stream_agent_response true chunks).snd = observedToolNames true chunks ∧
      (∀ retag : Chunk → Option (List ToolCallEntry),
        (stream_agent_response true (chunks.map (fun c => ⟨c.text, retag c⟩))).fst
          = (stream_agent_response true chunks).fst) ∧
      (∀ c : Chunk, c.text = "" → chunkContainsToolCalls c = false →
        stream_agent_response true (c :: chunks) = stream_agent_response true chunks) := by
  refine ⟨congrArg pyStrip (collectChunks_join_fst true chunks),
    collectChunks_snd true chunks, ?_, ?_⟩
  · intro retag
    exact congrArg (fun l => pyStrip (String.join l)) (collectChunks_fst_retag true retag chunks)
  · intro c h1 h2
    unfold stream_agent_response
    have hskip : collectChunks true (c :: chunks) = collectChunks true chunks := by
      simp [collectChunks, h1, h2]
    rw [hskip]

/-- C7 witness: the ignored-fragment hypothesis discharged at an empty chunk
prepended to the sample sequence, together with the text equation there. -/
theorem c7_response_collector_witness :
    stream_agent_response true ((⟨"", none⟩ : Chunk) :: sampleChunks)
        = stream_agent_response true sampleChunks ∧
      (stream_agent_response true sampleChunks).fst
        = pyStrip (String.join (sampleChunks.map Chunk.text)) := by
  have h := c7_response_collector sampleChunks
  exact ⟨h.2.2.2 ⟨"", none⟩ rfl rfl, h.1⟩

/-- C8 counterexample: the environment value "POETRY" is neither the string
"poetry" nor "mystery", yet the orchestrator lowercases it and runs the
poetry scenario (instantiating agents) instead of reporting a configuration
error. -/
theorem c8_unknown_scenario_counterexample :
    ("POETRY" : String) ≠ "poetry" ∧ ("POETRY" : String) ≠ "mystery" ∧
      mainOutcome "POETRY" [] = some .poetryRun ∧
      some ScenarioOutcome.poetryRun ≠ some ScenarioOutcome.configError ∧
      agentsInstantiated .poetryRun = true := by
  decide

/-- C8 (amended): for every non-empty scenario value whose lowercase form is
neither "poetry" nor "mystery", the orchestrator reports the unknown-scenario
configuration error and returns without instantiating any agent handle. -/
theorem c8_unknown_scenario (envScenario : String) (userInputs : List String)
    (h0 : pyLower envScenario ≠ "") (h1 : pyLower envScenario ≠ "poetry")
    (h2 : pyLower envScenario ≠ "mystery") :
    mainOutcome envScenario userInputs = some .configError ∧
      agentsInstantiated .configError = false := by
  unfold mainOutcome resolveScenario
  rw [if_neg h0]
  simp [h1, h2, agentsInstantiated]

/-- C8 witness: the unknown value "banana" is reported as a configuration
error without instantiating agents. -/
theorem c8_unknown_scenario_witness :
    mainOutcome "banana" [] = some .configError ∧
      agentsInstantiated .configError = false :=
  c8_unknown_scenario "banana" [] (by decide) (by decide) (by decide)

/-- C9: `describe_lotr_quote` raises exactly on empty or whitespace-only
input, and on every other input returns the fixed guidance string. -/
theorem c9_describe_quote_empty (quote : String) :
    (describe_lotr_quote quote = .error "Quote text must not be empty." ↔
        quote.data.all isPyWhitespace = true) ∧
      (describe_lotr_quote quote = .ok quoteGuidance ↔
        quote.data.all isPyWhitespace = false) := by
  unfold describe_lotr_quote
  by_cases h : pyStrip quote = ""
  · rw [if_pos h]
    have ha := (pyStrip_eq_empty_iff quote).mp h
    simp [ha]
  · rw [if_neg h]
    have ha : quote.data.all isPyWhitespace = false := by
      cases hq : quote.data.all isPyWhitespace
      · rfl
      · exact absurd ((pyStrip_eq_empty_iff quote).mpr hq) h
    simp [ha]

/-- C10: once the quote-total cache holds a non-positive value (as happens
when the upstream "total" field is absent or non-positive on first fetch),
every later `_ensure_total_quotes` call raises without contacting upstream,
and every later random-quote fetch fails. -/
theorem c10_cached_nonpositive_total (t : Int) (ht : t ≤ 0)
    (upstreamTotalField : Option Int) (docs : List String)
    (hpop : upstreamTotalField.getD 0 ≤ 0) :
    ensure_total_quotes none upstreamTotalField
        = ⟨some (upstreamTotalField.getD 0), .error totalCountError, true⟩ ∧
      ensure_total_quotes (some t) upstreamTotalField
        = ⟨some t, .error totalCountError, false⟩ ∧
      (ensure_total_quotes (some t) upstreamTotalField).contactedUpstream = false ∧
      fetch_random_quote (some t) upstreamTotalField docs
        = (some t, .error totalCountError) := by
  have he : ensure_total_quotes (some t) upstreamTotalField
      = ⟨some t, .error totalCountError, false⟩ := by
    show (if t ≤ 0 then (⟨some t, .error totalCountError, false⟩ : EnsureTotalResult)
          else ⟨some t, .ok t, false⟩) = ⟨some t, .error totalCountError, false⟩
    rw [if_pos ht]
  refine ⟨?_, he, by rw [he], ?_⟩
  · show (if upstreamTotalField.getD 0 ≤ 0 then
          (⟨some (upstreamTotalField.getD 0), .error totalCountError, true⟩ : EnsureTotalResult)
        else ⟨some (upstreamTotalField.getD 0), .ok (upstreamTotalField.getD 0), true⟩)
        = ⟨some (upstreamTotalField.getD 0), .error totalCountError, true⟩
    rw [if_pos hpop]
  · simp only [fetch_random_quote, he]

/-- C10 witness: with the cache poisoned at 0 and an upstream response
lacking a usable total, the ensure call raises without contacting upstream
and the random-quote fetch fails. -/
theorem c10_cached_nonpositive_total_witness :
    ensure_total_quotes none none = ⟨some 0, .error totalCountError, true⟩ ∧
      ensure_total_quotes (some 0) none = ⟨some 0, .error totalCountError, false⟩ ∧
      (ensure_total_quotes (some 0) none).contactedUpstream = false ∧
      fetch_random_quote (some 0) none [] = (some 0, .error totalCountError) :=
  c10_cached_nonpositive_total 0 (by decide) none [] (by decide)

end LotrDemo
